import Mathlib

/-!
Verification of the SchemaSense intent-routing / SQL-safety / approval-gate
core against its natural-language specification.

The Python sources are shallowly embedded:
* `src/query/executor.py`  → `_validate_sql`, `normalize_sql`, `run_sql_query`
* `src/export/exporter.py` → `generate_export`
* `src/llm/core.py`        → `run_llm`, `format_sql_results`
* `src/ui/handlers.py`     → `execute_sql`, `execute_sql_and_export`,
                             `execute_sql_and_chart`, `process_user_input`,
                             `handle_sql_approval`
* `main.py` (chat input)   → `handle_chat_input`

External collaborators (the SQLite connection, the LLM chat model, the
export file renderers, the matplotlib chart renderer, `json.loads`) are
parameters gathered in an `Env` record; the embedded functions quantify
over them.  Database access is made observable by threading a log of the
SQL strings actually handed to the data store.
-/

namespace SchemaSense

/-! ### Python string primitives -/

/-- Whitespace characters stripped by Python `str.strip()` (ASCII range). -/
def isPySpace (c : Char) : Bool :=
  c = ' ' || c = '\t' || c = '\n' || c = '\r' || c = '\x0b' || c = '\x0c'

/-- Python `s.strip()`. -/
def pyStrip (s : String) : String :=
  ⟨((s.toList.dropWhile isPySpace).reverse.dropWhile isPySpace).reverse⟩

/-- Python `s.lower()` (ASCII letters; the SQL texts involved are ASCII). -/
def pyLower (s : String) : String :=
  ⟨s.toList.map Char.toLower⟩

/-- Python `s.upper()` (ASCII letters). -/
def pyUpper (s : String) : String :=
  ⟨s.toList.map Char.toUpper⟩

/-- Python `s.rstrip(";")`: remove every trailing semicolon. -/
def pyRstripSemi (s : String) : String :=
  ⟨(s.toList.reverse.dropWhile (fun c => c = ';')).reverse⟩

/-- Does the pattern `p` occur at the head of `l`? -/
def listIsPrefixOf : List Char → List Char → Bool
  | [], _ => true
  | _ :: _, [] => false
  | a :: as, b :: bs => a == b && listIsPrefixOf as bs

/-- Does the pattern occur as a contiguous substring (Python `in`)? -/
def containsSubstr (pat : List Char) : List Char → Bool
  | [] => listIsPrefixOf pat []
  | c :: cs => listIsPrefixOf pat (c :: cs) || containsSubstr pat cs

/-- Does `l` end with `suf`? -/
def endsWithList (suf l : List Char) : Bool :=
  listIsPrefixOf suf.reverse l.reverse

/-- Regex word character `\w` as it applies to the ASCII SQL text. -/
def isWordChar (c : Char) : Bool :=
  c.isAlphanum || c = '_'

/-- Does keyword `kw` match at the head of `s`, followed by a word
boundary (`\b` on the right)? -/
def wordMatchAt : List Char → List Char → Bool
  | [], [] => true
  | [], c :: _ => !isWordChar c
  | _ :: _, [] => false
  | k :: ks, c :: cs => k == c && wordMatchAt ks cs

/-- Scan `s` for a whole-word occurrence of `kw`; `prevWord` records
whether the character just before the current position is a word
character (`\b` on the left). -/
def searchWordAux (kw : List Char) : Bool → List Char → Bool
  | _, [] => false
  | prevWord, c :: cs =>
    (!prevWord && wordMatchAt kw (c :: cs)) || searchWordAux kw (isWordChar c) cs

/-- The denylist of `FORBIDDEN_SQL` in `src/query/executor.py`. -/
def FORBIDDEN_KEYWORDS : List String :=
  ["insert", "update", "delete", "drop", "alter", "truncate", "create",
   "replace", "grant", "revoke", "attach", "detach", "pragma"]

/-- The regex search `FORBIDDEN_SQL.search(s)`: a case-insensitive whole-word occurrence of
some forbidden keyword (`s` is already lower-cased at the call site, as in
the source, where the regex is applied to `sql_clean`). -/
def forbiddenSqlSearch (s : String) : Bool :=
  FORBIDDEN_KEYWORDS.any fun kw => searchWordAux kw.toList false s.toList

/-! ### SQL safety validator (`_validate_sql`) -/

/-- The four rejection reasons raised as `ValueError` by `_validate_sql`. -/
inductive ValidationError
  | emptyQuery
  | notASelect
  | forbiddenKeyword
  | multipleStatements
deriving DecidableEq, Repr

/-- The `ValueError` message text attached to each rejection. -/
def ValidationError.message : ValidationError → String
  | .emptyQuery => "Empty SQL query"
  | .notASelect => "Only SELECT queries are allowed"
  | .forbiddenKeyword => "Forbidden SQL keyword detected"
  | .multipleStatements => "Multiple SQL statements are not allowed"

/-- The validator `_validate_sql` from `src/query/executor.py`: trim, lower-case, then
(1) reject empty, (2) require a `select` head, (3) reject forbidden
keywords, (4) reject a `;` anywhere but the final character. -/
def _validate_sql (sql : String) : Except ValidationError Unit :=
  let sql_clean := pyLower (pyStrip sql)
  if sql_clean = "" then .error .emptyQuery
  else if !listIsPrefixOf "select".toList sql_clean.toList then .error .notASelect
  else if forbiddenSqlSearch sql_clean then .error .forbiddenKeyword
  else if (sql_clean.toList.dropLast).contains ';' then .error .multipleStatements
  else .ok ()

/-! ### Rows, query results, and the executor (`run_sql_query`) -/

/-- A scalar value in a result row (the SQLite storage classes used by the
application; `blobV` carries the raw byte values of a BLOB column). -/
inductive Value
  | intV (n : Int)
  | textV (s : String)
  | blobV (bs : List Nat)
  | nullV
deriving DecidableEq, Repr

/-- A result row: the `dict(row)` mapping from column name to value. -/
abbrev Row : Type := List (String × Value)

/-- What `run_sql_query` hands back: either the fetched rows or, on an
`sqlite3.Error`, the error message. -/
inductive QueryResult
  | rows (rs : List Row)
  | error (msg : String)
deriving DecidableEq

/-- Equality on `Except` values is decidable when it is on both layers. -/
instance exceptDecEq {ε α : Type} [DecidableEq ε] [DecidableEq α] :
    DecidableEq (Except ε α) := fun a b =>
  match a, b with
  | .error e1, .error e2 =>
    if h : e1 = e2 then isTrue (by rw [h])
    else isFalse (by intro hh; cases hh; exact h rfl)
  | .error _, .ok _ => isFalse (by intro hh; cases hh)
  | .ok _, .error _ => isFalse (by intro hh; cases hh)
  | .ok a1, .ok a2 =>
    if h : a1 = a2 then isTrue (by rw [h])
    else isFalse (by intro hh; cases hh; exact h rfl)

/-- The data store behind `sqlite3.connect(...).execute(sql)`: maps the SQL
string actually executed to either the fetched rows or an `sqlite3.Error`
message. -/
abbrev Db : Type := String → Except String (List Row)

/-- The limit test of the executor, `" limit " in f" {sql.lower()} "`: does the
lower-cased text, padded with one space on each side, contain the
substring `" limit "`? -/
def hasLimitClause (t : String) : Bool :=
  containsSubstr " limit ".toList (" " ++ pyLower t ++ " ").toList

/-- The normalization performed inline by `run_sql_query`: strip
whitespace, strip trailing `;`, and append `LIMIT {limit}` unless the
limit test succeeds. -/
def normalize_sql (sql : String) (limit : Nat) : String :=
  let s := pyRstripSemi (pyStrip sql)
  if !hasLimitClause s then
    s ++ " LIMIT " ++ toString limit
  else
    s

/-- The executor `run_sql_query` from `src/query/executor.py`.  The
`ValueError` of the validator is raised (the `Except.error` of the outer
layer — the `try` block starts only after validation); an `sqlite3.Error`
from the data store is caught and returned as `QueryResult.error`.  The
second component of the payload is the executor-call log: the list of SQL
strings actually handed to the data store. -/
def run_sql_query (db : Db) (sql : String) (limit : Nat) :
    Except ValidationError (QueryResult × List String) :=
  match _validate_sql sql with
  | .error e => .error e
  | .ok _ =>
    match db (normalize_sql sql limit) with
    | .ok rs => .ok (.rows rs, [normalize_sql sql limit])
    | .error e => .ok (.error e, [normalize_sql sql limit])

/-! ### Byte sanitization (`sanitize` in `handlers.py` / `llm/core.py`) -/

/-- Is `b` a UTF-8 continuation byte? -/
def utf8Cont (b : Nat) : Bool := 0x80 ≤ b && b < 0xC0

/-- Strict UTF-8 decoding of a byte list (as Python `bytes.decode("utf-8")`:
rejects overlong forms, surrogates, and values above `0x10FFFF`). -/
def utf8DecodeList : List Nat → Option (List Char)
  | [] => some []
  | b :: rest =>
    if b < 0x80 then
      (utf8DecodeList rest).map fun cs => Char.ofNat b :: cs
    else if 0xC2 ≤ b && b ≤ 0xDF then
      match rest with
      | b1 :: rest2 =>
        if utf8Cont b1 then
          (utf8DecodeList rest2).map fun cs =>
            Char.ofNat ((b - 0xC0) * 64 + (b1 - 0x80)) :: cs
        else none
      | _ => none
    else if 0xE0 ≤ b && b ≤ 0xEF then
      match rest with
      | b1 :: b2 :: rest2 =>
        let lowOk :=
          if b = 0xE0 then 0xA0 ≤ b1 && b1 < 0xC0
          else if b = 0xED then 0x80 ≤ b1 && b1 < 0xA0
          else utf8Cont b1
        if lowOk && utf8Cont b2 then
          (utf8DecodeList rest2).map fun cs =>
            Char.ofNat ((b - 0xE0) * 4096 + (b1 - 0x80) * 64 + (b2 - 0x80)) :: cs
        else none
      | _ => none
    else if 0xF0 ≤ b && b ≤ 0xF4 then
      match rest with
      | b1 :: b2 :: b3 :: rest2 =>
        let lowOk :=
          if b = 0xF0 then 0x90 ≤ b1 && b1 < 0xC0
          else if b = 0xF4 then 0x80 ≤ b1 && b1 < 0x90
          else utf8Cont b1
        if lowOk && utf8Cont b2 && utf8Cont b3 then
          (utf8DecodeList rest2).map fun cs =>
            Char.ofNat ((b - 0xF0) * 262144 + (b1 - 0x80) * 4096 +
              (b2 - 0x80) * 64 + (b3 - 0x80)) :: cs
        else none
      | _ => none
    else none

/-- Python `bytes.decode("utf-8")`, as an `Option`. -/
def utf8DecodeOpt (bs : List Nat) : Option String :=
  (utf8DecodeList bs).map fun cs => ⟨cs⟩

/-- One lowercase hexadecimal digit. -/
def hexDigit (n : Nat) : Char :=
  if n < 10 then Char.ofNat (48 + n) else Char.ofNat (87 + n)

/-- Python `bytes.hex()`: two lowercase hex digits per byte. -/
def bytesToHex (bs : List Nat) : String :=
  ⟨bs.foldr (fun b acc => hexDigit (b / 16 % 16) :: hexDigit (b % 16) :: acc) []⟩

/-- The `sanitize` helper repeated in `execute_sql_and_export`,
`execute_sql_and_chart` and `format_sql_results`: a bytes value is decoded
as UTF-8, or hex-encoded when decoding fails; other values pass through. -/
def sanitize (v : Value) : Value :=
  match v with
  | .blobV bs =>
    match utf8DecodeOpt bs with
    | some s => .textV s
    | none => .textV (bytesToHex bs)
  | v => v

/-- Python `{k: sanitize(v) for k, v in row.items()}`. -/
def sanitizeRow (r : Row) : Row :=
  r.map fun kv => (kv.1, sanitize kv.2)

/-- Tests whether the value is a raw byte sequence. -/
def Value.isBlob : Value → Bool
  | .blobV _ => true
  | _ => false

/-- Does a row contain a raw byte value? -/
def rowHasBlob (r : Row) : Bool :=
  r.any fun kv => kv.2.isBlob

/-! ### Result formatting (`format_sql_results` in `src/llm/core.py`) -/

/-- What `format_sql_results` returns: a natural-language message and the
sanitized rows. -/
structure FormattedResults where
  message : String
  rows : List Row
deriving DecidableEq

/-- The formatter `format_sql_results`: empty rows short-circuit to a fixed message;
otherwise the rows are sanitized and the external chat model (here the
`summarize` parameter, applied to the question, the SQL and the sanitized
rows it is shown) produces the message. -/
def format_sql_results (summarize : String → String → List Row → String)
    (original_query sql : String) (rows : List Row) : FormattedResults :=
  if rows = [] then
    ⟨"The query returned no results.", []⟩
  else
    let safe_rows := rows.map sanitizeRow
    ⟨summarize original_query sql safe_rows, safe_rows⟩

/-! ### Export dispatch (`generate_export` in `src/export/exporter.py`) -/

/-- A file produced by one of the external renderers `export_to_csv` /
`export_to_excel` / `export_to_pdf`: its path and the bytes read back. -/
structure RenderedFile where
  path : String
  bytes : List Nat
deriving DecidableEq

/-- The external export renderer: format and rows to a rendered file, or
an exception message. -/
abbrev ExportRenderer : Type := String → List Row → Except String RenderedFile

/-- The success payload of `generate_export`. -/
structure ExportPayload where
  file_data : List Nat
  file_name : String
  mime : String
deriving DecidableEq

/-- The dict `generate_export` returns: `{"success": True, ...}` or
`{"success": False, "error": ...}`. -/
inductive ExportResult
  | success (p : ExportPayload)
  | failure (error : String)
deriving DecidableEq

/-- The `exporters` mapping of `generate_export`: format → MIME type. -/
def EXPORT_MIMES : List (String × String) :=
  [("csv", "text/csv"),
   ("excel", "application/vnd.openxmlformats-officedocument.spreadsheetml.sheet"),
   ("pdf", "application/pdf")]

/-- Python `Path(filepath).name`: the final component after the last `/`. -/
def pathName (p : String) : String :=
  ⟨(p.toList.reverse.takeWhile (fun c => c ≠ '/')).reverse⟩

/-- The dispatcher `generate_export` from `src/export/exporter.py`: empty rows fail with
"No data to export" before anything else; an unknown format fails; the
renderer for the format is invoked and its file read back, with the MIME
type corrected to `text/html` for the PDF fallback path. -/
def generate_export (render : ExportRenderer) (rows : List Row) (fmt : String) :
    ExportResult :=
  if rows = [] then .failure "No data to export"
  else
    match (EXPORT_MIMES.find? (fun kv => kv.1 = fmt)).map Prod.snd with
    | none => .failure ("Unknown format: " ++ fmt)
    | some mime =>
      match render fmt rows with
      | .error e => .failure e
      | .ok f =>
        let mime2 := if endsWithList ".html".toList f.path.toList then "text/html" else mime
        .success ⟨f.bytes, pathName f.path, mime2⟩

/-! ### Chart collaborator (`generate_chart` in `src/charts/generator.py`,
matplotlib rendering: external) -/

/-- The arguments `generate_chart` receives. -/
structure ChartArgs where
  chart_type : String
  x_column : Option String
  y_column : Option String
  title : Option String
  theme : String
  color : Option String
  show_grid : Bool
  show_legend : Bool
  font_size : Nat
deriving DecidableEq

/-- The success dict of `generate_chart`. -/
structure ChartOut where
  chart_data : List Nat
  file_name : String
  mime : String
  chart_type : String
  title : String
  theme : String
deriving DecidableEq

/-- The external chart renderer: rows and arguments to a chart payload, or
an error message (`{"success": False, "error": ...}`). -/
abbrev ChartRenderer : Type := List Row → ChartArgs → Except String ChartOut

/-! ### Classifier output as seen by `run_llm` -/

/-- The projection of a parsed JSON object onto the fields `run_llm`
reads with `parsed.get(...)`; a missing field is `none`. -/
structure Jobj where
  type : Option String
  sql : Option String
  format : Option String
  chart_type : Option String
  x_column : Option String
  y_column : Option String
  title : Option String
  theme : Option String
  content : Option String
deriving DecidableEq

/-! ### The external collaborators of the core -/

/-- All external collaborators, gathered: the SQLite data store, the chat
model summarizing results, the export file renderers, the chart renderer,
the intent classifier (raw text output of the chat model, a function of the
user utterance and of the prior result set shown in its prompt), and
`json.loads` restricted to the fields the core reads. -/
structure Env where
  db : Db
  summarize : String → String → List Row → String
  export_render : ExportRenderer
  chart_render : ChartRenderer
  classify : String → Option (List Row) → String
  jsonParse : String → Option Jobj

/-! ### Intent classification and routing (`run_llm` in `src/llm/core.py`) -/

/-- The dicts `run_llm` can return, by their `"type"` field.  An `sql`
field is `Option String` because `parsed.get("sql")` may be absent. -/
inductive LlmResult
  | exportR (answer : String) (file_data : List Nat) (file_name : String) (mime : String)
  | chartR (answer : String) (chart_data : List Nat) (file_name : String)
      (mime : String) (theme : String)
  | sqlAndChart (sql : Option String) (chart_type : String)
      (x_column y_column : Option String) (title : Option String) (theme : String)
  | sqlAndExport (sql : Option String) (export_format : String)
  | sqlR (sql : Option String)
  | answerR (answer : String)
deriving DecidableEq

/-- Python `bool(last_results)`: `None` and `[]` are falsy. -/
def hasData : Option (List Row) → Bool
  | some (_ :: _) => true
  | _ => false

/-- The router `run_llm` from `src/llm/core.py`: the raw classifier output is
stripped and parsed as JSON.  Parse failure degrades to a direct answer
carrying the raw text.  `export` / `chart` types act immediately on the
prior result set when one is non-empty.  `sql*` types are passed through
to the caller unexecuted.  Anything else degrades to a direct answer
carrying the parsed `content` field, or the raw text when that field is
absent. -/
def run_llm (env : Env) (query : String) (last_results : Option (List Row)) :
    LlmResult :=
  let raw := pyStrip (env.classify query last_results)
  let has_data := hasData last_results
  match env.jsonParse raw with
  | none => .answerR raw
  | some parsed =>
    if (parsed.type == some "export") && has_data then
      let fmt := parsed.format.getD "csv"
      match generate_export env.export_render (last_results.getD []) fmt with
      | .success p =>
        .exportR ("Here you go! Your " ++ pyUpper fmt ++ " file is ready.")
          p.file_data p.file_name p.mime
      | .failure e =>
        .answerR ("Sorry, I couldn\x27t generate the file: " ++ e)
    else if (parsed.type == some "chart") && has_data then
      match env.chart_render (last_results.getD [])
          ⟨parsed.chart_type.getD "bar", parsed.x_column, parsed.y_column,
           parsed.title, parsed.theme.getD "default", none, true, false, 10⟩ with
      | .ok c =>
        .chartR ("Here\x27s your " ++ c.chart_type ++ " chart: " ++ c.title)
          c.chart_data c.file_name c.mime (c.theme)
      | .error e =>
        .answerR ("Sorry, I couldn\x27t generate the chart: " ++ e)
    else if parsed.type == some "sql_and_chart" then
      .sqlAndChart parsed.sql (parsed.chart_type.getD "bar") parsed.x_column
        parsed.y_column parsed.title (parsed.theme.getD "default")
    else if parsed.type == some "sql_and_export" then
      .sqlAndExport parsed.sql (parsed.format.getD "csv")
    else if parsed.type == some "sql" then
      .sqlR parsed.sql
    else
      .answerR (parsed.content.getD raw)

/-! ### Session state (`src/state/session.py`, `st.session_state`) -/

/-- The extra payload `add_message` may attach via keyword arguments. -/
inductive Payload
  | none
  | file (file_data : List Nat) (file_name : String) (file_mime : String)
  | chart (chart_data : List Nat) (file_name : String) (file_mime : String)
deriving DecidableEq

/-- A chat message. -/
structure Message where
  role : String
  content : String
  payload : Payload
deriving DecidableEq

/-- The side request attached to a stored `pending_sql` dict: a bare SQL
approval, an `auto_export` with a format, or an `auto_chart` with its
chart parameters. -/
inductive SideRequest
  | plain
  | autoExport (export_format : String)
  | autoChart (chart_type : String) (x_column y_column : Option String)
      (title : Option String)
deriving DecidableEq

/-- The `st.session_state.pending_sql` dict. -/
structure PendingSql where
  sql : Option String
  original_query : String
  side : SideRequest
deriving DecidableEq

/-- The per-session state dictionary (the fields the embedded handlers
read or write; chart preferences carry their `st.session_state.get`
defaults). -/
structure SessionState where
  messages : List Message
  last_results : Option (List Row)
  pending_sql : Option PendingSql
  chart_theme : String
  chart_color : Option String
  chart_show_grid : Bool
  chart_show_legend : Bool
  chart_font_size : Nat
  last_chart_rows : Option (List Row)
  last_chart_type : Option String
  last_chart_x_column : Option String
  last_chart_y_column : Option String
  last_chart_title : Option String
deriving DecidableEq

/-- The helper `add_message`: append a message to the chat history. -/
def add_message (st : SessionState) (role content : String) (payload : Payload) :
    SessionState :=
  { st with messages := st.messages ++ [⟨role, content, payload⟩] }

/-! ### Execution handlers (`src/ui/handlers.py`) -/

/-- Python `str(AttributeError(...))` when `sql` is `None` and `.strip()`
is called on it inside `_validate_sql`; caught by the `except Exception`
blocks of the handlers. -/
def noneSqlError : String := "\x27NoneType\x27 object has no attribute \x27strip\x27"

/-- What `execute_sql` returns. -/
inductive ExecResult
  | ok (message : String) (rows : List Row)
  | err (error : String)
deriving DecidableEq

/-- Is this the `{"error": ...}` outcome? -/
def ExecResult.isErr : ExecResult → Bool
  | .err _ => true
  | _ => false

/-- The handler `execute_sql`: run the query, report data-store errors, otherwise
format the rows.  A raised `ValueError` (validator rejection) is caught by
the surrounding `except Exception` and turned into `{"error": str(e)}`.
The second component is the executor-call log inherited from
`run_sql_query`. -/
def execute_sql (env : Env) (sql : Option String) (original_query : String) :
    ExecResult × List String :=
  match sql with
  | none => (.err noneSqlError, [])
  | some s =>
    match run_sql_query env.db s 100 with
    | .error ve => (.err ve.message, [])
    | .ok (.error m, log) => (.err m, log)
    | .ok (.rows rs, log) =>
      let formatted := format_sql_results env.summarize original_query s rs
      (.ok formatted.message formatted.rows, log)

/-- What `execute_sql_and_export` returns. -/
inductive ExportExecResult
  | ok (rows : List Row) (file_data : List Nat) (file_name : String)
      (mime : String) (format : String)
  | err (error : String)
deriving DecidableEq

/-- Is this the `{"error": ...}` outcome? -/
def ExportExecResult.isErr : ExportExecResult → Bool
  | .err _ => true
  | _ => false

/-- The handler `execute_sql_and_export`: run the query, require non-empty rows,
sanitize them, and delegate to `generate_export`. -/
def execute_sql_and_export (env : Env) (sql : Option String)
    (original_query export_format : String) : ExportExecResult × List String :=
  match sql with
  | none => (.err noneSqlError, [])
  | some s =>
    match run_sql_query env.db s 100 with
    | .error ve => (.err ve.message, [])
    | .ok (.error m, log) => (.err m, log)
    | .ok (.rows rs, log) =>
      if rs = [] then (.err "Query returned no results to export.", log)
      else
        let safe_rows := rs.map sanitizeRow
        match generate_export env.export_render safe_rows export_format with
        | .failure e => (.err e, log)
        | .success p =>
          (.ok safe_rows p.file_data p.file_name p.mime export_format, log)

/-- What `execute_sql_and_chart` returns. -/
inductive ChartExecResult
  | ok (rows : List Row) (chart_data : List Nat) (file_name : String)
      (mime : String) (chart_type : String) (title : String) (theme : String)
  | err (error : String)
deriving DecidableEq

/-- Is this the `{"error": ...}` outcome? -/
def ChartExecResult.isErr : ChartExecResult → Bool
  | .err _ => true
  | _ => false

/-- The handler `execute_sql_and_chart`: run the query, require non-empty
rows, sanitize them, and delegate to the chart renderer with the chart
preferences held in the session. -/
def execute_sql_and_chart (env : Env) (st : SessionState) (sql : Option String)
    (original_query chart_type : String) (x_column y_column : Option String)
    (title : Option String) : ChartExecResult × List String :=
  match sql with
  | none => (.err noneSqlError, [])
  | some s =>
    match run_sql_query env.db s 100 with
    | .error ve => (.err ve.message, [])
    | .ok (.error m, log) => (.err m, log)
    | .ok (.rows rs, log) =>
      if rs = [] then (.err "Query returned no results to chart.", log)
      else
        let safe_rows := rs.map sanitizeRow
        match env.chart_render safe_rows
            ⟨chart_type, x_column, y_column, title, st.chart_theme, st.chart_color,
             st.chart_show_grid, st.chart_show_legend, st.chart_font_size⟩ with
        | .error e => (.err e, log)
        | .ok c =>
          (.ok safe_rows c.chart_data c.file_name c.mime chart_type c.title c.theme,
            log)

/-- The approval gate `handle_sql_approval`: with no pending action, do nothing.  On deny,
emit the "SQL execution denied." notice and execute nothing.  On approve,
run the branch selected by the pending side request; error outcomes emit
"SQL execution failed: ..." and success outcomes store the rows and emit
the result message.  In every branch the pending action is cleared at the
end.  The second component is the executor-call log. -/
def handle_sql_approval (env : Env) (approved : Bool) (st : SessionState) :
    SessionState × List String :=
  match st.pending_sql with
  | none => (st, [])
  | some pending =>
    let step : SessionState × List String :=
      if approved then
        match pending.side with
        | .autoChart chart_type x_column y_column title =>
          match execute_sql_and_chart env st pending.sql pending.original_query
              chart_type x_column y_column title with
          | (.err e, log) =>
            (add_message st "assistant" ("SQL execution failed: " ++ e) .none, log)
          | (.ok rows chart_data file_name mime rctype _ _, log) =>
            let st1 := { st with
              last_results := some rows,
              last_chart_rows := some rows,
              last_chart_type := some chart_type,
              last_chart_x_column := x_column,
              last_chart_y_column := y_column,
              last_chart_title := title }
            (add_message st1 "assistant"
              ("Here\x27s your " ++ rctype ++ " chart with " ++
                toString rows.length ++ " data points.")
              (.chart chart_data file_name mime), log)
        | .autoExport export_format =>
          match execute_sql_and_export env pending.sql pending.original_query
              export_format with
          | (.err e, log) =>
            (add_message st "assistant" ("SQL execution failed: " ++ e) .none, log)
          | (.ok rows file_data file_name mime _, log) =>
            let st1 := { st with last_results := some rows }
            (add_message st1 "assistant"
              ("Here you go! Your " ++ pyUpper export_format ++ " file with " ++
                toString rows.length ++ " rows is ready.")
              (.file file_data file_name mime), log)
        | .plain =>
          match execute_sql env pending.sql pending.original_query with
          | (.err e, log) =>
            (add_message st "assistant" ("SQL execution failed: " ++ e) .none, log)
          | (.ok message rows, log) =>
            let st1 := { st with last_results := some rows }
            (add_message st1 "assistant" message .none, log)
      else
        (add_message st "assistant" "SQL execution denied." .none, [])
    ({ step.1 with pending_sql := none }, step.2)

/-- The value `process_user_input` returns to the page script. -/
inductive ProcessOutcome
  | export
  | chart
  | sql_and_chart (sql : Option String)
  | sql_and_export (sql : Option String) (format : String)
  | sqlOutcome (sql : Option String)
  | answer
deriving DecidableEq

/-- The entry point `process_user_input`: append the user message, classify, and either
emit the immediate answer / export / chart message, or store a new pending
action for approval (the `sql*` intents execute nothing here). -/
def process_user_input (env : Env) (prompt : String) (st : SessionState) :
    SessionState × ProcessOutcome :=
  let st1 := add_message st "user" prompt .none
  match run_llm env prompt st1.last_results with
  | .exportR answer file_data file_name mime =>
    (add_message st1 "assistant" answer (.file file_data file_name mime), .export)
  | .chartR answer chart_data file_name mime _ =>
    (add_message st1 "assistant" answer (.chart chart_data file_name mime), .chart)
  | .sqlAndChart sql chart_type x_column y_column title _ =>
    (let p : PendingSql := ⟨sql, prompt, .autoChart chart_type x_column y_column title⟩
     ({ st1 with pending_sql := some p }, .sql_and_chart sql))
  | .sqlAndExport sql export_format =>
    ({ st1 with pending_sql := some ⟨sql, prompt, .autoExport export_format⟩ },
      .sql_and_export sql export_format)
  | .sqlR sql =>
    ({ st1 with pending_sql := some ⟨sql, prompt, .plain⟩ }, .sqlOutcome sql)
  | .answerR answer =>
    (add_message st1 "assistant" answer .none, .answer)

/-- The chat-input handler of `main.py` (lines 332-335): any pending
action is discarded unconditionally before the new utterance is
processed. -/
def handle_chat_input (env : Env) (prompt : String) (st : SessionState) :
    SessionState × ProcessOutcome :=
  process_user_input env prompt { st with pending_sql := none }

/-! ### Concrete collaborator environments and states for witnesses -/

/-- A data store holding one row, other collaborators trivial. -/
def env0 : Env :=
  ⟨fun _ => .ok [[("name", .textV "Chai")]],
   fun _ _ _ => "Here are your results.",
   fun _ _ => .ok ⟨"export_1.csv", [1, 2, 3]⟩,
   fun _ _ => .ok ⟨[7], "chart_1.png", "image/png", "bar", "t", "default"⟩,
   fun _ _ => "hello",
   fun _ => none⟩

/-- A data store that always reports an `sqlite3.Error`. -/
def envDbErr : Env :=
  ⟨fun _ => .error "no such table: t",
   fun _ _ _ => "", fun _ _ => .error "unused", fun _ _ => .error "unused",
   fun _ _ => "", fun _ => none⟩

/-- A data store whose every query returns zero rows. -/
def envEmptyDb : Env :=
  ⟨fun _ => .ok [],
   fun _ _ _ => "", fun _ _ => .error "unused", fun _ _ => .error "unused",
   fun _ _ => "", fun _ => none⟩

/-- A fresh session: no messages, no prior results, nothing pending. -/
def st0 : SessionState :=
  ⟨[], none, none, "default", some "#4f46e5", true, false, 10,
   none, none, none, none, none⟩

/-! ## Helper lemmas -/

/-- Whenever `run_sql_query` reaches the data store, the SQL it hands over
is exactly the normalized query. -/
theorem run_sql_query_log (db : Db) (s : String) (q : QueryResult)
    (log : List String) (h : run_sql_query db s 100 = .ok (q, log)) :
    log = [normalize_sql s 100] := by
  unfold run_sql_query at h
  cases hv : _validate_sql s <;> rw [hv] at h
  · simp at h
  · cases hd : db (normalize_sql s 100) <;> rw [hd] at h <;>
      simp only [Except.ok.injEq, Prod.mk.injEq] at h <;> exact h.2.symm

/-- Every entry of the executor-call log of `execute_sql` is the normalized
form of the stored SQL. -/
theorem execute_sql_log (env : Env) (sql : Option String) (oq e : String)
    (he : e ∈ (execute_sql env sql oq).2) :
    ∃ s, sql = some s ∧ e = normalize_sql s 100 := by
  cases sql with
  | none => simp [execute_sql] at he
  | some s =>
    refine ⟨s, rfl, ?_⟩
    simp only [execute_sql] at he
    cases hq : run_sql_query env.db s 100 with
    | error ve => rw [hq] at he; simp at he
    | ok pr =>
      obtain ⟨q, log⟩ := pr
      have hl := run_sql_query_log env.db s q log hq
      rw [hq] at he
      cases q <;> rw [hl] at he <;> simp at he <;> exact he

/-- Every entry of the executor-call log of `execute_sql_and_export` is the
normalized form of the stored SQL. -/
theorem execute_sql_and_export_log (env : Env) (sql : Option String)
    (oq fmt e : String) (he : e ∈ (execute_sql_and_export env sql oq fmt).2) :
    ∃ s, sql = some s ∧ e = normalize_sql s 100 := by
  cases sql with
  | none => simp [execute_sql_and_export] at he
  | some s =>
    refine ⟨s, rfl, ?_⟩
    simp only [execute_sql_and_export] at he
    cases hq : run_sql_query env.db s 100 with
    | error ve => rw [hq] at he; simp at he
    | ok pr =>
      obtain ⟨q, log⟩ := pr
      have hl := run_sql_query_log env.db s q log hq
      rw [hq] at he
      cases q with
      | rows rs =>
        rw [hl] at he
        by_cases hrs : rs = []
        · simp [hrs] at he; exact he
        · cases hge : generate_export env.export_render (rs.map sanitizeRow) fmt <;>
            simp [hrs, hge] at he <;> exact he
      | error m => rw [hl] at he; simp at he; exact he

/-- Every entry of the executor-call log of `execute_sql_and_chart` is the
normalized form of the stored SQL. -/
theorem execute_sql_and_chart_log (env : Env) (st : SessionState)
    (sql : Option String) (oq ct : String) (x y : Option String)
    (t : Option String) (e : String)
    (he : e ∈ (execute_sql_and_chart env st sql oq ct x y t).2) :
    ∃ s, sql = some s ∧ e = normalize_sql s 100 := by
  cases sql with
  | none => simp [execute_sql_and_chart] at he
  | some s =>
    refine ⟨s, rfl, ?_⟩
    simp only [execute_sql_and_chart] at he
    cases hq : run_sql_query env.db s 100 with
    | error ve => rw [hq] at he; simp at he
    | ok pr =>
      obtain ⟨q, log⟩ := pr
      have hl := run_sql_query_log env.db s q log hq
      rw [hq] at he
      cases q with
      | rows rs =>
        rw [hl] at he
        by_cases hrs : rs = []
        · simp [hrs] at he; exact he
        · cases hge : env.chart_render (rs.map sanitizeRow)
              ⟨ct, x, y, t, st.chart_theme, st.chart_color, st.chart_show_grid,
               st.chart_show_legend, st.chart_font_size⟩ <;>
            simp [hrs, hge] at he <;> exact he
      | error m => rw [hl] at he; simp at he; exact he

/-- The executor-call log of an approval is the log of the branch selected
by the pending side request. -/
theorem handle_approve_snd (env : Env) (st : SessionState) (p : PendingSql)
    (h : st.pending_sql = some p) :
    (handle_sql_approval env true st).2 =
      (match p.side with
       | .plain => (execute_sql env p.sql p.original_query).2
       | .autoExport f => (execute_sql_and_export env p.sql p.original_query f).2
       | .autoChart c x y t =>
         (execute_sql_and_chart env st p.sql p.original_query c x y t).2) := by
  obtain ⟨psql, poq, pside⟩ := p
  cases pside with
  | plain =>
    cases hr : execute_sql env psql poq with
    | mk r log => cases r <;> simp [handle_sql_approval, h, hr]
  | autoExport f =>
    cases hr : execute_sql_and_export env psql poq f with
    | mk r log => cases r <;> simp [handle_sql_approval, h, hr]
  | autoChart c x y t =>
    cases hr : execute_sql_and_chart env st psql poq c x y t with
    | mk r log => cases r <;> simp [handle_sql_approval, h, hr]

/-- Every SQL string the data store sees during an approval is the
normalized form of the SQL held in the pending action being approved. -/
theorem approval_log (env : Env) (st : SessionState) (p : PendingSql)
    (h : st.pending_sql = some p) (e : String)
    (he : e ∈ (handle_sql_approval env true st).2) :
    ∃ s, p.sql = some s ∧ e = normalize_sql s 100 := by
  rw [handle_approve_snd env st p h] at he
  cases hside : p.side <;> rw [hside] at he
  · exact execute_sql_log env p.sql p.original_query e he
  · exact execute_sql_and_export_log env p.sql p.original_query _ e he
  · exact execute_sql_and_chart_log env st p.sql p.original_query _ _ _ _ e he

/-- Did the approved branch of `handle_sql_approval` end in the
`{"error": ...}` outcome (validator rejection at approval time,
executor-level failure, or dispatch failure)? -/
def approval_failed (env : Env) (st : SessionState) (p : PendingSql) : Bool :=
  match p.side with
  | .plain => (execute_sql env p.sql p.original_query).1.isErr
  | .autoExport f => (execute_sql_and_export env p.sql p.original_query f).1.isErr
  | .autoChart c x y t =>
    (execute_sql_and_chart env st p.sql p.original_query c x y t).1.isErr

/-! ## Claims -/

/-- Claim C2: from any state holding a pending action, handling a deny makes
zero executor calls (empty executor-call log, and the result does not
depend on any collaborator), appends the explicit "SQL execution denied."
notice, and clears the pending action (back to Idle). -/
theorem C2 (env env2 : Env) (st : SessionState) (p : PendingSql)
    (h : st.pending_sql = some p) :
    (handle_sql_approval env false st).2 = []
    ∧ (handle_sql_approval env false st).1.pending_sql = none
    ∧ (handle_sql_approval env false st).1.messages
        = st.messages ++ [⟨"assistant", "SQL execution denied.", .none⟩]
    ∧ handle_sql_approval env false st = handle_sql_approval env2 false st := by
  unfold handle_sql_approval
  rw [h]
  exact ⟨rfl, rfl, rfl, rfl⟩

/-- Witness for C2 at a concrete environment and state. -/
theorem C2_witness :
    (handle_sql_approval env0 false
        { st0 with pending_sql := some ⟨some "select 1", "one", .plain⟩ }).2 = [] := by
  exact (C2 env0 envDbErr _ ⟨some "select 1", "one", .plain⟩ rfl).1

/-- Claim C3: whatever the approval decision and whatever the collaborators
do (success, validator rejection at approval time, executor-level failure,
dispatch failure, or denial), handling a held pending action always ends
with the pending action cleared; the handler is a total function, so no
path is fatal to the session. -/
theorem C3 (env : Env) (approved : Bool) (st : SessionState) (p : PendingSql)
    (h : st.pending_sql = some p) :
    (handle_sql_approval env approved st).1.pending_sql = none := by
  unfold handle_sql_approval
  rw [h]

/-- Witness for C3 at a concrete failing approval. -/
theorem C3_witness :
    (handle_sql_approval envDbErr true
        { st0 with pending_sql := some ⟨some "select 1", "one", .plain⟩ }).1.pending_sql
      = none :=
  C3 envDbErr true _ ⟨some "select 1", "one", .plain⟩ rfl

/-- Claim C7: the executor `run_sql_query` turns a data-store error into
`QueryResult.error` (returned, not raised), while a validator rejection is
raised past it untouched. -/
theorem C7 (db : Db) (sql : String) :
    (∀ e, _validate_sql sql = .error e → run_sql_query db sql 100 = .error e)
    ∧ (∀ msg, _validate_sql sql = .ok () →
        db (normalize_sql sql 100) = .error msg →
        run_sql_query db sql 100 = .ok (.error msg, [normalize_sql sql 100])) := by
  constructor
  · intro e he
    unfold run_sql_query
    rw [he]
  · intro msg hv hd
    unfold run_sql_query
    rw [hv, hd]

/-- Witness for C7: a query referencing a missing column yields an error
field, and a non-SELECT input propagates the validator rejection. -/
theorem C7_witness :
    run_sql_query (fun _ => .error "no such column: foo") "select foo from t" 100
      = .ok (.error "no such column: foo", ["select foo from t LIMIT 100"])
    ∧ run_sql_query (fun _ => .ok []) "drop table t" 100 = .error .notASelect := by
  constructor
  · have h := (C7 (fun _ => .error "no such column: foo") "select foo from t").2
      "no such column: foo" (by decide) rfl
    exact h.trans (by decide)
  · exact (C7 (fun _ => .ok []) "drop table t").1 .notASelect (by decide)

/-- Claim C8: dispatching an export over an empty row sequence produces
the "No data to export" error, with no renderer invocation (the outcome is
the same for every renderer); and the empty-result guard of the handler fires
before `generate_export` is ever consulted. -/
theorem C8 :
    (∀ (render : ExportRenderer) (fmt : String),
        generate_export render [] fmt = .failure "No data to export")
    ∧ (∀ (r1 r2 : ExportRenderer) (fmt : String),
        generate_export r1 [] fmt = generate_export r2 [] fmt)
    ∧ (∀ (env : Env) (s oq fmt : String),
        _validate_sql s = .ok () →
        env.db (normalize_sql s 100) = .ok [] →
        execute_sql_and_export env (some s) oq fmt
          = (.err "Query returned no results to export.", [normalize_sql s 100])) := by
  refine ⟨fun render fmt => rfl, fun r1 r2 fmt => rfl, ?_⟩
  intro env s oq fmt hv hd
  simp only [execute_sql_and_export]
  unfold run_sql_query
  rw [hv, hd]
  rfl

/-- Witness for the handler conjunct of C8 at a concrete empty data store. -/
theorem C8_witness :
    execute_sql_and_export envEmptyDb (some "select name from customers") "q" "csv"
      = (.err "Query returned no results to export.",
          ["select name from customers LIMIT 100"]) := by
  have h := C8.2.2 envEmptyDb "select name from customers" "q" "csv" (by decide) rfl
  exact h.trans (by decide)

/-- Claim C10: when an approved pending action fails (validator rejection
at approval time, executor-level error, or dispatch error), the
`last_results` field is left unchanged, so the previous result set stays
available to later export or chart intents. -/
theorem C10 (env : Env) (st : SessionState) (p : PendingSql)
    (h : st.pending_sql = some p)
    (hfail : approval_failed env st p = true) :
    (handle_sql_approval env true st).1.last_results = st.last_results := by
  obtain ⟨psql, poq, pside⟩ := p
  cases pside with
  | plain =>
    simp only [approval_failed] at hfail
    cases hr : execute_sql env psql poq with
    | mk r log =>
      rw [hr] at hfail
      cases r with
      | ok m rs => simp [ExecResult.isErr] at hfail
      | err msg => simp [handle_sql_approval, h, hr, add_message]
  | autoExport f =>
    simp only [approval_failed] at hfail
    cases hr : execute_sql_and_export env psql poq f with
    | mk r log =>
      rw [hr] at hfail
      cases r with
      | ok rs fd fn mi fo => simp [ExportExecResult.isErr] at hfail
      | err msg => simp [handle_sql_approval, h, hr, add_message]
  | autoChart c x y t =>
    simp only [approval_failed] at hfail
    cases hr : execute_sql_and_chart env st psql poq c x y t with
    | mk r log =>
      rw [hr] at hfail
      cases r with
      | ok rs cd fn mi ct ti th => simp [ChartExecResult.isErr] at hfail
      | err msg => simp [handle_sql_approval, h, hr, add_message]

/-- Witness for C10: the data store fails, the prior result set stays. -/
theorem C10_witness :
    (handle_sql_approval envDbErr true
        { st0 with
          last_results := some [[("name", .textV "Chai")]],
          pending_sql := some ⟨some "select name from customers", "q", .plain⟩ }).1.last_results
      = some [[("name", .textV "Chai")]] := by
  have h := C10 envDbErr
    { st0 with
      last_results := some [[("name", .textV "Chai")]],
      pending_sql := some ⟨some "select name from customers", "q", .plain⟩ }
    ⟨some "select name from customers", "q", .plain⟩ rfl (by decide)
  exact h.trans (by decide)

/-- The validator, zeta-reduced: the four checks in source order. -/
theorem validate_eq (sql : String) :
    _validate_sql sql =
      (if pyLower (pyStrip sql) = "" then .error .emptyQuery
       else if !listIsPrefixOf "select".toList (pyLower (pyStrip sql)).toList then
         .error .notASelect
       else if forbiddenSqlSearch (pyLower (pyStrip sql)) then
         .error .forbiddenKeyword
       else if ((pyLower (pyStrip sql)).toList.dropLast).contains ';' then
         .error .multipleStatements
       else .ok ()) := rfl

/-- Claim C4, counterexample: `validate("DROP TABLE customers")` rejects
with the NotASelect reason ("Only SELECT queries are allowed"), not with
ForbiddenKeyword: the must-start-with-select rule fires first. -/
theorem C4_counterexample :
    _validate_sql "DROP TABLE customers" = .error .notASelect
    ∧ _validate_sql "DROP TABLE customers" ≠ .error .forbiddenKeyword := by
  constructor
  · decide
  · decide

/-- Claim C4, amended: the validator applies its rules in the stated order
with first failure winning — empty, then not-a-select, then forbidden
keyword, then multiple statements — and `validate("DROP TABLE customers")`
therefore rejects with NotASelect even though the text also matches the
keyword denylist. -/
theorem C4_amended :
    (∀ sql, pyLower (pyStrip sql) = "" →
      _validate_sql sql = .error .emptyQuery)
    ∧ (∀ sql, pyLower (pyStrip sql) ≠ "" →
        listIsPrefixOf "select".toList (pyLower (pyStrip sql)).toList = false →
        _validate_sql sql = .error .notASelect)
    ∧ (∀ sql, pyLower (pyStrip sql) ≠ "" →
        listIsPrefixOf "select".toList (pyLower (pyStrip sql)).toList = true →
        forbiddenSqlSearch (pyLower (pyStrip sql)) = true →
        _validate_sql sql = .error .forbiddenKeyword)
    ∧ (∀ sql, pyLower (pyStrip sql) ≠ "" →
        listIsPrefixOf "select".toList (pyLower (pyStrip sql)).toList = true →
        forbiddenSqlSearch (pyLower (pyStrip sql)) = false →
        ((pyLower (pyStrip sql)).toList.dropLast).contains ';' = true →
        _validate_sql sql = .error .multipleStatements)
    ∧ _validate_sql "DROP TABLE customers" = .error .notASelect
    ∧ forbiddenSqlSearch (pyLower (pyStrip "DROP TABLE customers")) = true := by
  refine ⟨?_, ?_, ?_, ?_, by decide, by decide⟩
  · intro sql h1
    rw [validate_eq, if_pos h1]
  · intro sql h1 h2
    rw [validate_eq, if_neg h1, h2]
    rfl
  · intro sql h1 h2 h3
    rw [validate_eq, if_neg h1, h2, h3]
    rfl
  · intro sql h1 h2 h3 h4
    rw [validate_eq, if_neg h1, h2, h3, h4]
    rfl

/-- Witness for the amended C4 ordering at concrete inputs: one input per
rejection rule, in order. -/
theorem C4_amended_witness :
    _validate_sql "   " = .error .emptyQuery
    ∧ _validate_sql "delete from t where 1=1" = .error .notASelect
    ∧ _validate_sql "select 1; drop table x" = .error .forbiddenKeyword
    ∧ _validate_sql "SELECT * FROM a; SELECT * FROM b"
        = .error .multipleStatements := by
  refine ⟨C4_amended.1 "   " (by decide),
    C4_amended.2.1 "delete from t where 1=1" (by decide) (by decide),
    C4_amended.2.2.1 "select 1; drop table x" (by decide) (by decide) (by decide),
    C4_amended.2.2.2.1 "SELECT * FROM a; SELECT * FROM b" (by decide) (by decide)
      (by decide) (by decide)⟩

/-- Claim C5, counterexample: the input "select * from orders\nlimit 10" is accepted
and contains a standalone (whole-word) `limit` clause, yet the normalized
output gets a duplicate `LIMIT 100` appended: the code only looks for the
substring `" limit "` delimited by single spaces, and a newline-delimited
clause escapes it. -/
theorem C5_counterexample :
    _validate_sql "select * from orders\nlimit 10" = .ok ()
    ∧ searchWordAux "limit".toList false
        (pyLower (pyStrip "select * from orders\nlimit 10")).toList = true
    ∧ normalize_sql "select * from orders\nlimit 10" 100
        = "select * from orders\nlimit 10 LIMIT 100" := by
  refine ⟨by decide, by decide, by decide⟩

/-- The normalization, zeta-reduced. -/
theorem normalize_eq (sql : String) (limit : Nat) :
    normalize_sql sql limit =
      (if !hasLimitClause (pyRstripSemi (pyStrip sql)) then
        pyRstripSemi (pyStrip sql) ++ " LIMIT " ++ toString limit
      else pyRstripSemi (pyStrip sql)) := rfl

/-- Claim C5, amended: for every accepted input, `LIMIT 100` is appended
exactly when the lower-cased text, once padded with one space on each
side, lacks the substring `" limit "` (so a space-delimited limit clause
suppresses the cap, while tab- or newline-delimited ones do not); the SQL
actually handed to the data store is exactly this normalized string. -/
theorem C5_amended (s : String) (hacc : _validate_sql s = .ok ()) :
    (hasLimitClause (pyRstripSemi (pyStrip s)) = true →
      normalize_sql s 100 = pyRstripSemi (pyStrip s))
    ∧ (hasLimitClause (pyRstripSemi (pyStrip s)) = false →
      normalize_sql s 100 = pyRstripSemi (pyStrip s) ++ " LIMIT 100")
    ∧ (∀ db : Db, ∃ q, run_sql_query db s 100 = .ok (q, [normalize_sql s 100])) := by
  refine ⟨?_, ?_, ?_⟩
  · intro h
    rw [normalize_eq, h]
    rfl
  · intro h
    rw [normalize_eq, h]
    show pyRstripSemi (pyStrip s) ++ " LIMIT " ++ toString 100
        = pyRstripSemi (pyStrip s) ++ " LIMIT 100"
    rw [String.append_assoc]
    exact congrArg (fun t => pyRstripSemi (pyStrip s) ++ t) (by decide)
  · intro db
    unfold run_sql_query
    rw [hacc]
    cases hd : db (normalize_sql s 100) with
    | ok rs => exact ⟨.rows rs, rfl⟩
    | error e => exact ⟨.error e, rfl⟩

/-- Witness for the amended C5 statement at the two examples of the spec. -/
theorem C5_amended_witness :
    normalize_sql "select * from orders limit 10" 100
      = "select * from orders limit 10"
    ∧ normalize_sql "select name from customers" 100
      = "select name from customers LIMIT 100" := by
  constructor
  · have h := (C5_amended "select * from orders limit 10" (by decide)).1 (by decide)
    exact h.trans (by decide)
  · have h := (C5_amended "select name from customers" (by decide)).2.1 (by decide)
    exact h.trans (by decide)

/-- Does a query result contain a raw byte value? -/
def resultHasBlob : QueryResult → Bool
  | .rows rs => rs.any rowHasBlob
  | .error _ => false

/-- Sanitizing never returns a raw byte value. -/
theorem sanitize_not_blob (v : Value) : (sanitize v).isBlob = false := by
  cases v with
  | blobV bs =>
    show (match utf8DecodeOpt bs with
      | some s => Value.textV s
      | none => Value.textV (bytesToHex bs)).isBlob = false
    cases utf8DecodeOpt bs <;> rfl
  | intV n => rfl
  | textV s => rfl
  | nullV => rfl

/-- A sanitized row contains no raw byte value. -/
theorem rowHasBlob_sanitizeRow (r : Row) : rowHasBlob (sanitizeRow r) = false := by
  induction r with
  | nil => rfl
  | cons kv tl ih =>
    simp only [rowHasBlob, sanitizeRow, List.map_cons, List.any_cons] at *
    rw [sanitize_not_blob, ih]
    rfl

/-- Sanitizing every row of a list leaves no raw byte value anywhere. -/
theorem sanitized_rows_no_blob (rs : List Row) :
    ((rs.map sanitizeRow).all fun r => !rowHasBlob r) = true := by
  induction rs with
  | nil => rfl
  | cons r tl ih =>
    simp only [List.map_cons, List.all_cons]
    rw [rowHasBlob_sanitizeRow, ih]
    rfl

/-- Claim C6, counterexample: the `QueryResult` returned by the executor
itself can contain raw byte values: `run_sql_query` passes fetched rows
through unchanged (`executor.py` has no decode logic), so a BLOB column
leaves the executor as raw bytes. -/
theorem C6_counterexample :
    run_sql_query (fun _ => .ok [[("photo", Value.blobV [255])]])
        "select photo from t" 100
      = .ok (.rows [[("photo", Value.blobV [255])]],
          ["select photo from t LIMIT 100"])
    ∧ resultHasBlob (.rows [[("photo", Value.blobV [255])]]) = true := by
  constructor
  · decide
  · decide

/-- Claim C6, amended: byte-sequence values are decoded as UTF-8 text, or
hex-encoded when decoding fails, in the dispatch layer — the `sanitize`
helper of `execute_sql_and_export` / `execute_sql_and_chart` /
`format_sql_results` — not inside the Query Executor: a sanitized row
never contains raw bytes, a bytes value becomes exactly
decode-or-hex text, and every row `format_sql_results` hands on is
sanitized. -/
theorem C6_amended :
    (∀ r : Row, rowHasBlob (sanitizeRow r) = false)
    ∧ (∀ bs, sanitize (Value.blobV bs)
        = .textV ((utf8DecodeOpt bs).getD (bytesToHex bs)))
    ∧ (∀ (summarize : String → String → List Row → String) (oq sql : String)
        (rows : List Row),
        ((format_sql_results summarize oq sql rows).rows.all
          fun r => !rowHasBlob r) = true) := by
  refine ⟨rowHasBlob_sanitizeRow, ?_, ?_⟩
  · intro bs
    show (match utf8DecodeOpt bs with
      | some s => Value.textV s
      | none => Value.textV (bytesToHex bs))
        = Value.textV ((utf8DecodeOpt bs).getD (bytesToHex bs))
    cases utf8DecodeOpt bs <;> rfl
  · intro summarize oq sql rows
    unfold format_sql_results
    by_cases h : rows = []
    · rw [if_pos h]
      rfl
    · rw [if_neg h]
      exact sanitized_rows_no_blob rows

/-- A raw classifier output that parses as a JSON object with an
unrecognized `type` and a `content` field (braces written as escapes). -/
def rawBogus : String := "\x7b\"type\": \"bogus\", \"content\": \"hi\"\x7d"

/-- The projection of `json.loads(rawBogus)` onto the fields the core
reads. -/
def objBogus : Jobj :=
  ⟨some "bogus", none, none, none, none, none, none, none, some "hi"⟩

/-- An environment whose classifier answers `rawBogus` and whose JSON
parser parses exactly that string. -/
def env9 : Env :=
  ⟨fun _ => .ok [], fun _ _ _ => "", fun _ _ => .error "unused",
   fun _ _ => .error "unused", fun _ _ => rawBogus,
   fun s => if s = rawBogus then some objBogus else none⟩

/-- An environment whose classifier output never parses as JSON. -/
def envNoJson : Env :=
  ⟨fun _ => .ok [], fun _ _ _ => "", fun _ _ => .error "unused",
   fun _ _ => .error "unused", fun _ _ => "plain text", fun _ => none⟩

/-- Claim C9, counterexample: a classifier output that parses as a JSON
object with an unrecognized `type` but with a `content` field degrades to
a direct answer carrying that `content` value, not the raw classifier
text. -/
theorem C9_counterexample :
    run_llm env9 "show me stats" none = .answerR "hi"
    ∧ pyStrip (env9.classify "show me stats" none) = rawBogus
    ∧ ("hi" : String) ≠ rawBogus := by
  refine ⟨by decide, by decide, by decide⟩

/-- Claim C9, amended: classifier output that fails to parse as JSON
degrades to a direct answer carrying the raw text; output that parses but
matches none of the recognized type guards degrades to a direct answer
carrying its `content` field when present and the raw text otherwise — in
both cases a plain answer, never an error. -/
theorem C9_amended (env : Env) (q : String) (lr : Option (List Row)) :
    (env.jsonParse (pyStrip (env.classify q lr)) = none →
      run_llm env q lr = .answerR (pyStrip (env.classify q lr)))
    ∧ (∀ obj, env.jsonParse (pyStrip (env.classify q lr)) = some obj →
        ((obj.type == some "export") && hasData lr) = false →
        ((obj.type == some "chart") && hasData lr) = false →
        (obj.type == some "sql_and_chart") = false →
        (obj.type == some "sql_and_export") = false →
        (obj.type == some "sql") = false →
        run_llm env q lr
          = .answerR (obj.content.getD (pyStrip (env.classify q lr)))) := by
  constructor
  · intro hp
    simp only [run_llm]
    rw [hp]
  · intro obj hp h1 h2 h3 h4 h5
    simp only [run_llm]
    rw [hp]
    simp [h1, h2, h3, h4, h5]

/-- Witness for the amended C9 statement: a non-JSON output and the
`rawBogus` output, both at concrete environments. -/
theorem C9_amended_witness :
    run_llm envNoJson "hello" none = .answerR "plain text"
    ∧ run_llm env9 "show me stats" none = .answerR "hi" := by
  constructor
  · have h := (C9_amended envNoJson "hello" none).1 rfl
    exact h.trans (by decide)
  · have h := (C9_amended env9 "show me stats" none).2 objBogus (by decide)
      (by decide) (by decide) (by decide) (by decide) (by decide)
    exact h.trans (by decide)

/-- A pending action stored by a fresh utterance carries that utterance as
its `original_query`. -/
theorem chat_pending_from_prompt (env : Env) (prompt : String)
    (st : SessionState) (p : PendingSql)
    (hp : (handle_chat_input env prompt st).1.pending_sql = some p) :
    p.original_query = prompt := by
  simp only [handle_chat_input, process_user_input] at hp
  cases hr : run_llm env prompt
      (add_message { st with pending_sql := none } "user" prompt .none).last_results <;>
    rw [hr] at hp <;> simp [add_message] at hp
  · rw [← hp]
  · rw [← hp]
  · rw [← hp]

/-- Claim C1: a new utterance arriving while a pending action is held
behaves exactly as if no action were pending (the old one is discarded
unconditionally before the classifier result is processed); any pending
action present afterwards belongs to the new utterance, and approving then
sends only the normalized form of that newest stored SQL to the data
store — never the discarded one.  At most one pending action exists by
construction (`pending_sql` is a single optional slot). -/
theorem C1 (env : Env) (prompt : String) (st : SessionState) (pOld : PendingSql)
    (h : st.pending_sql = some pOld) :
    handle_chat_input env prompt st
        = handle_chat_input env prompt { st with pending_sql := none }
    ∧ (∀ p, (handle_chat_input env prompt st).1.pending_sql = some p →
        p.original_query = prompt)
    ∧ (∀ p, (handle_chat_input env prompt st).1.pending_sql = some p →
        ∀ e, e ∈ (handle_sql_approval env true (handle_chat_input env prompt st).1).2 →
          ∃ s, p.sql = some s ∧ e = normalize_sql s 100) := by
  refine ⟨rfl, ?_, ?_⟩
  · intro p hp
    exact chat_pending_from_prompt env prompt st p hp
  · intro p hp e he
    exact approval_log env _ p hp e he

/-- Witness for C1 at a concrete held action and classifier. -/
theorem C1_witness :
    handle_chat_input env9 "show me stats"
        { st0 with pending_sql := some ⟨some "select old from t", "old q", .plain⟩ }
      = handle_chat_input env9 "show me stats"
          { { st0 with pending_sql := some ⟨some "select old from t", "old q", .plain⟩ }
            with pending_sql := none } :=
  (C1 env9 "show me stats"
    { st0 with pending_sql := some ⟨some "select old from t", "old q", .plain⟩ }
    ⟨some "select old from t", "old q", .plain⟩ rfl).1

end SchemaSense
